import Mathlib

/-!
Verification of the forced-exit request fulfillment engine
(`core/bin/zksync_forced_exit_requests/src/forced_exit_sender.rs`).

The Rust code is shallowly embedded: pure functions become Lean functions,
storage/network side effects become an explicit effect trace, machine-integer
arithmetic (`i64`, `u32`, `u8`) is modelled on `Nat`/`Int` with explicit
wrapping where the Rust release-mode semantics wraps.  External collaborators
(storage lookups, the network client, receipt availability, hashing) are
passed in as function parameters.
-/

set_option maxRecDepth 100000

namespace ZkSyncForcedExit

abbrev TxHash := Nat
abbrev Address := Nat
abbrev TokenId := Nat
abbrev AccountId := Nat

/-- Modelled from the spec: `TimeRange` lives in `zksync_types` (not under
`src/`); its `default()` is the unbounded validity window, the full `u64`
range. -/
structure TimeRange where
  valid_from : Nat
  valid_until : Nat
deriving DecidableEq, Repr

def TimeRange.deflt : TimeRange := ⟨0, 2 ^ 64 - 1⟩

/-- Persisted forced-exit request row (`ForcedExitRequest` of `zksync_types`),
with exactly the fields this engine reads or writes.  Timestamps are `Int`,
`price_in_wei` (a `BigUint`) is `Nat`. -/
structure ForcedExitRequest where
  id : Int
  target : Address
  tokens : List TokenId
  price_in_wei : Nat
  valid_until : Int
  fulfilled_at : Option Int
  fulfilled_by : Option (List TxHash)
deriving DecidableEq, Repr

/-! Amount codec (`extract_id_from_amount`, lines 79-94).

The source computes `id_space_size` as `10_i64.pow(digits)`: an `i64`
computation. Release-mode Rust wraps on overflow, so we model the `i64`
value with explicit two's-complement wrapping; in debug mode the overflow
itself panics, which the model likewise reports as `none` (decode-time
failure). `BigUint::from_i64(..).unwrap()` fails on negative input, and the
final `id.try_into().unwrap()` fails if `id` exceeds `i64::MAX`. -/

/-- Two's-complement wrapping of an integer into the `i64` range. -/
def i64_wrap (n : Int) : Int := (n + 2 ^ 63) % 2 ^ 64 - 2 ^ 63

/-- Value of `10_i64.pow(digits)` under release-mode (wrapping) semantics. -/
def id_space_size_i64 (digits : Nat) : Int := i64_wrap (10 ^ digits)

/-- Model of `BigUint::from_i64`: defined exactly on non-negative inputs. -/
def biguint_from_i64 (n : Int) : Option Nat := if 0 ≤ n then some n.toNat else none

/-- Model of `i64::try_from` on a `BigUint`: succeeds iff the value fits. -/
def i64_try_from (n : Nat) : Option Int :=
  if n ≤ 2 ^ 63 - 1 then some (n : Int) else none

/-- Model of `extract_id_from_amount` (lines 79-94): `id = amount mod
id_space_size` (via `modpow` with exponent 1), then the id is subtracted from
the amount.  `none` models a panic of one of the `unwrap`s (or of the `pow`
overflow itself in debug builds) at decode time. -/
def extract_id_from_amount (digits : Nat) (amount : Nat) : Option (Int × Nat) :=
  match biguint_from_i64 (id_space_size_i64 digits) with
  | none => none
  | some id_space_size =>
    let id := amount % id_space_size
    match i64_try_from id with
    | none => none
    | some id_i64 => some (id_i64, amount - id)

/-- Model of `ForcedExitSender::new` (lines 54-77) restricted to what it checks
about the configuration: the body only looks up the sender account id and
decodes the sender private key, both independent of
`config.forced_exit_requests.digits_in_id`; no validation of `digits_in_id` is
performed, so startup accepts every digit count. -/
def new_accepts_digits (_digits : Nat) : Bool :=
  true

/-! Request validator (`check_request`, lines 144-164). -/

/-- Model of `check_request` (lines 144-164): absent request → false,
`fulfilled_at` set → false, otherwise
`request.valid_until > submission_time && request.price_in_wei == amount`. -/
def check_request (amount : Nat) (submission_time : Int)
    (request : Option ForcedExitRequest) : Bool :=
  match request with
  | none => false
  | some r =>
    if r.fulfilled_at.isSome then false
    else decide (r.valid_until > submission_time) && decide (r.price_in_wei = amount)

/-! Transaction builder (`build_forced_exit` lines 96-117,
`build_transactions` lines 119-140). -/

/-- Ephemeral signed exit transaction, holding exactly the arguments the source
passes to `ForcedExit::new_signed` (the signature itself is external crypto and
carries no information the claims mention). -/
structure SignedZkSyncTx where
  initiator_account_id : AccountId
  target : Address
  token : TokenId
  amount : Nat
  nonce : Nat
  time_range : TimeRange
deriving DecidableEq, Repr

/-- Modelled from the spec: `ForcedExit::new_signed` (`zksync_types`, not under
`src/`) builds one signed exit transaction carrying exactly these arguments. -/
def ForcedExit.new_signed (initiator : AccountId) (target : Address)
    (token : TokenId) (amount : Nat) (nonce : Nat) (tr : TimeRange) :
    SignedZkSyncTx :=
  ⟨initiator, target, token, amount, nonce, tr⟩

/-- Model of `build_forced_exit` (lines 96-117): a `ForcedExit` for `target` and
`token`, amount `0`, the given nonce, `TimeRange::default()`. -/
def build_forced_exit (sender_account_id : AccountId) (nonce : Nat)
    (target : Address) (token : TokenId) : SignedZkSyncTx :=
  ForcedExit.new_signed sender_account_id target token 0 nonce TimeRange.deflt

/-- Nonce increment: `Nonce` wraps a `u32`, and `sender_nonce.add_assign(1)`
wraps on overflow in release builds. -/
def u32_wrap_succ (n : Nat) : Nat := (n + 1) % 2 ^ 32

/-- Loop body of `build_transactions` (lines 134-137): one transaction per
token, in order, incrementing the sender nonce after each. -/
def build_transactions_go (sender_account_id : AccountId) (target : Address) :
    Nat → List TokenId → List SignedZkSyncTx
  | _, [] => []
  | nonce, token :: rest =>
    build_forced_exit sender_account_id nonce target token ::
      build_transactions_go sender_account_id target (u32_wrap_succ nonce) rest

/-- Model of `build_transactions` (lines 119-140); `sender_nonce` is the
committed nonce fetched from `last_committed_state_for_account`. -/
def build_transactions (sender_account_id : AccountId) (sender_nonce : Nat)
    (fe_request : ForcedExitRequest) : List SignedZkSyncTx :=
  build_transactions_go sender_account_id fe_request.target sender_nonce
    fe_request.tokens

/-! Side effects.  The engine's writes to storage and the one network send are
recorded as an explicit trace, in program order. -/

/-- Observable effect of the engine: the batch send to the core API client, and
the two storage writes the engine performs (`set_fulfilled_by`,
`set_fulfilled_at`). -/
inductive StorageEffect
  | send_txs_batch (txs : List SignedZkSyncTx)
  | set_fulfilled_by (id : Int) (value : Option (List TxHash))
  | set_fulfilled_at (id : Int) (time : Int)
deriving DecidableEq, Repr

/-- Mutable columns of one request row. -/
structure ReqRow where
  fulfilled_by : Option (List TxHash)
  fulfilled_at : Option Int
deriving DecidableEq, Repr

/-- Apply one effect to the row of request `id` (other rows unaffected; the
network send touches no storage). -/
def applyEffect (id : Int) (row : ReqRow) : StorageEffect → ReqRow
  | StorageEffect.send_txs_batch _ => row
  | StorageEffect.set_fulfilled_by i v =>
    if i = id then { row with fulfilled_by := v } else row
  | StorageEffect.set_fulfilled_at i t =>
    if i = id then { row with fulfilled_at := some t } else row

/-- Apply a trace of effects, left to right, to the row of request `id`. -/
def applyEffects (id : Int) (row : ReqRow) (effs : List StorageEffect) : ReqRow :=
  effs.foldl (applyEffect id) row

/-! Submission (`send_transactions`, lines 262-278).  The hashing of a signed
transaction is external (`tx.hash()`), passed as `hash`; `send_ok` is the
combined outcome of the double-wrapped `send_txs_batch` result (`false` for a
transport error or an application-level rejection, either of which the two
`?` operators propagate). -/

/-- Model of `send_transactions` (lines 262-278): compute the hashes, send the
batch, and only after a successful send persist `fulfilled_by = Some(hashes)`
and return the hashes; a failed send returns the error with nothing
persisted. -/
def send_transactions (hash : SignedZkSyncTx → TxHash) (send_ok : Bool)
    (request : ForcedExitRequest) (txs : List SignedZkSyncTx) :
    List StorageEffect × Except Unit (List TxHash) :=
  let hashes := txs.map hash
  if send_ok then
    ([StorageEffect.send_txs_batch txs,
      StorageEffect.set_fulfilled_by request.id (some hashes)],
     Except.ok hashes)
  else
    ([StorageEffect.send_txs_batch txs], Except.error ())

/-! Confirmation polling (`wait_until_comitted`, lines 280-312).

The source sets `timeout_millis = 120000`, `poll_interval_millis = 200`, and
then builds the tick interval with `time::Duration::from_secs(poll_interval_millis)`
— seconds, not milliseconds.  Each loop iteration checks the receipt, sleeps
one tick, and adds `200` to `time_passed`; when `time_passed` reaches
`timeout_millis` the code panics.  So the receipt is checked
`120000 / 200 = 600` times and the loop sleeps 600 ticks of 200 seconds each
before the timeout panic. -/

def timeout_millis : Nat := 120000

def poll_interval_millis : Nat := 200

/-- Milliseconds of one `Duration::from_secs(secs)`. -/
def duration_from_secs_millis (secs : Nat) : Nat := secs * 1000

/-- Milliseconds actually slept per poll: the source passes
`poll_interval_millis` to `Duration::from_secs`. -/
def poll_sleep_millis : Nat := duration_from_secs_millis poll_interval_millis

/-- Number of receipt checks (and sleeps) before the timeout panic. -/
def wait_iters : Nat := timeout_millis / poll_interval_millis

/-- Outcome of `wait_until_comitted`: `Ok(())`, the transaction-failed error,
or the timeout panic that halts processing. -/
inductive WaitOutcome
  | committed
  | failed
  | timedOutFatal
deriving DecidableEq, Repr

/-- Loop of `wait_until_comitted` (lines 292-311): `receipt i` is the receipt
lookup result at the i-th poll.  Returns the outcome and the number of
200-second sleeps performed. -/
def wait_until_comitted_go (receipt : Nat → Option Bool) (i : Nat) :
    Nat → WaitOutcome × Nat
  | 0 => (WaitOutcome.timedOutFatal, 0)
  | fuel + 1 =>
    match receipt i with
    | some success =>
      (if success then WaitOutcome.committed else WaitOutcome.failed, 0)
    | none =>
      let r := wait_until_comitted_go receipt (i + 1) fuel
      (r.1, r.2 + 1)

/-- Model of `wait_until_comitted` (lines 280-312): `receipt i = some s` means
the receipt lookup at the i-th poll returns a receipt with `success = s`. -/
def wait_until_comitted (receipt : Nat → Option Bool) : WaitOutcome × Nat :=
  wait_until_comitted_go receipt 0 wait_iters

/-! Reconciliation (`await_unconfirmed_request` lines 167-181,
`await_unconfirmed` lines 203-223).  `confirm h` abstracts the outcome of
`wait_until_comitted` on hash `h` (`true` = committed, `false` = the
transaction-failed error; the timeout case panics the process instead of
returning, so it does not reach the error handler). -/

/-- Loop of `await_unconfirmed_request` (lines 174-179): for each hash, await
it and — still inside the loop — persist `fulfilled_at`; a failed await
propagates the error, keeping the effects already performed.  Returns the
effect trace and whether the whole loop succeeded. -/
def await_unconfirmed_request_go (confirm : TxHash → Bool) (now : Int)
    (id : Int) : List TxHash → List StorageEffect × Bool
  | [] => ([], true)
  | h :: rest =>
    if confirm h then
      let r := await_unconfirmed_request_go confirm now id rest
      (StorageEffect.set_fulfilled_at id now :: r.1, r.2)
    else ([], false)

/-- Model of `await_unconfirmed_request` (lines 167-181): nothing to do when
`fulfilled_by` is `None`. -/
def await_unconfirmed_request (confirm : TxHash → Bool) (now : Int)
    (request : ForcedExitRequest) : List StorageEffect × Bool :=
  match request.fulfilled_by with
  | none => ([], true)
  | some hashes => await_unconfirmed_request_go confirm now request.id hashes

/-- Model of the per-request body of `await_unconfirmed` (lines 207-220): on an
error from `await_unconfirmed_request`, clear `fulfilled_by` back to `None`. -/
def await_unconfirmed_one (confirm : TxHash → Bool) (now : Int)
    (request : ForcedExitRequest) : List StorageEffect :=
  let r := await_unconfirmed_request confirm now request
  if r.2 then r.1
  else r.1 ++ [StorageEffect.set_fulfilled_by request.id none]

/-! Single pipeline attempt (`try_process_request`, lines 314-346). -/

/-- Outcome of one `try_process_request` attempt.  The `Ok(())` of a validation
miss and of a fulfilled request are both `ok`, as in the source; the variants
beyond `ok`/`err` model panics: the decode-time `unwrap` failures in
`extract_id_from_amount`, the `unwrap` of an absent request (unreachable after
`check_request`), the out-of-bounds index `hashes[0]`, and the confirmation
timeout panic. -/
inductive TryOutcome
  | ok
  | err
  | decodeFailure
  | unwrapNone
  | indexOutOfBounds
  | timedOutFatal
deriving DecidableEq, Repr

/-- Model of `try_process_request` (lines 314-346): decode, look the request
up, validate, build the batch, send it, wait for the first hash, mark
fulfilled.  External inputs: the stored-request lookup `get_request`, the
transaction hasher `hash`, the send outcome `send_ok`, the sender account id
and committed nonce, and the per-hash receipt stream `receipt`.  Returns the
outcome and the effect trace. -/
def try_process_request (digits : Nat)
    (get_request : Int → Option ForcedExitRequest)
    (hash : SignedZkSyncTx → TxHash) (send_ok : Bool)
    (sender_account_id : AccountId) (sender_nonce : Nat)
    (receipt : TxHash → Nat → Option Bool)
    (now : Int) (amount : Nat) (submission_time : Int) :
    TryOutcome × List StorageEffect :=
  match extract_id_from_amount digits amount with
  | none => (TryOutcome.decodeFailure, [])
  | some (id, amount) =>
    let fe_request := get_request id
    if check_request amount submission_time fe_request then
      match fe_request with
      | none => (TryOutcome.unwrapNone, [])
      | some req =>
        let txs := build_transactions sender_account_id sender_nonce req
        let sent := send_transactions hash send_ok req txs
        match sent.2 with
        | Except.error _ => (TryOutcome.err, sent.1)
        | Except.ok hashes =>
          match hashes[0]? with
          | none => (TryOutcome.indexOutOfBounds, sent.1)
          | some h0 =>
            match (wait_until_comitted (receipt h0)).1 with
            | WaitOutcome.committed =>
              (TryOutcome.ok, sent.1 ++ [StorageEffect.set_fulfilled_at id now])
            | WaitOutcome.failed => (TryOutcome.err, sent.1)
            | WaitOutcome.timedOutFatal => (TryOutcome.timedOutFatal, sent.1)
    else (TryOutcome.ok, [])

/-! Retry orchestrator (`process_request`, lines 348-368, and
`PROCESSING_ATTEMPTS`, line 29). -/

def PROCESSING_ATTEMPTS : Nat := 3

/-- Counter update after a failed attempt: `attempts` is a `u8` and
`attempts += 1` wraps modulo `2^8` in release builds. -/
def attempts_after_failure (attempts : Nat) : Nat := (attempts + 1) % 256

/-- Escalation-log condition `attempts >= PROCESSING_ATTEMPTS` (line 364),
evaluated after the increment. -/
def logs_escalation (attempts : Nat) : Bool :=
  decide (attempts ≥ PROCESSING_ATTEMPTS)

/-- Counter value after `n` consecutive failed attempts, starting from 0. -/
def attempts_after_failures : Nat → Nat
  | 0 => 0
  | n + 1 => attempts_after_failure (attempts_after_failures n)

/-- Model of the loop of `process_request` (lines 353-367) over a finite
prefix of attempt outcomes (`true` = the attempt returned `Ok`).  Returns
`some n` when the loop returned after the n-th attempt, `none` when every
listed attempt failed and the loop is still running, together with the
escalation-log flag emitted after each failed attempt. -/
def process_request_go (attempts : Nat) :
    List Bool → Option Nat × List Bool
  | [] => (none, [])
  | ok :: rest =>
    if ok then (some 1, [])
    else
      let a := attempts_after_failure attempts
      let r := process_request_go a rest
      (r.1.map (· + 1), logs_escalation a :: r.2)

/-- Model of `process_request` (lines 348-368): the loop starts with
`attempts = 0`. -/
def process_request (outcomes : List Bool) : Option Nat × List Bool :=
  process_request_go 0 outcomes

/-! Concrete fixtures used to evaluate the models at specific inputs. -/

/-- Transaction hasher used in concrete runs (hashing is external crypto; any
injective-enough function exercises the data flow). -/
def hashNonce : SignedZkSyncTx → TxHash := fun tx => tx.nonce

/-- Concrete signed transaction. -/
def txA : SignedZkSyncTx := build_forced_exit 55 7 77 4

/-- Request 1 owing two tokens, not yet attempted. -/
def reqTwoTokens : ForcedExitRequest := ⟨1, 77, [4, 9], 500000, 10, none, none⟩

/-- Request 123 with an empty token list, price 500000, still valid. -/
def reqEmptyTokens : ForcedExitRequest := ⟨123, 77, [], 500000, 10, none, none⟩

/-- Request 1 with a recorded two-hash submission awaiting confirmation. -/
def reqTwoHashes : ForcedExitRequest := ⟨1, 77, [5], 100, 10, none, some [10, 11]⟩

/-- Confirmation oracle: hash 10 commits, every other hash fails. -/
def confirmFirstOnly : TxHash → Bool := fun h => decide (h = 10)

/-- Confirmation oracle: every hash commits. -/
def confirmAll : TxHash → Bool := fun _ => true

/-- Stored-request lookup holding exactly `reqEmptyTokens`. -/
def lookupEmptyTokens : Int → Option ForcedExitRequest :=
  fun i => if i = 123 then some reqEmptyTokens else none

/-! Theorems. -/

/-- Helper: two's-complement wrapping is the identity below `2^63`. -/
theorem i64_wrap_eq_of_lt (n : Int) (h0 : 0 ≤ n)
    (h : n < 9223372036854775808) : i64_wrap n = n := by
  have h64 : (2 : Int) ^ 64 = 18446744073709551616 := by norm_num
  have h63 : (2 : Int) ^ 63 = 9223372036854775808 := by norm_num
  unfold i64_wrap
  rw [h63, h64, Int.emod_eq_of_lt (by omega) (by omega)]
  omega

/-- Helper: for any digit count up to 18 (so that `10^digits` fits in `i64`),
`extract_id_from_amount` succeeds and returns the mod/difference pair. -/
theorem extract_eq_of_le (digits amount : Nat) (hd : digits ≤ 18) :
    extract_id_from_amount digits amount =
      some (((amount % 10 ^ digits : Nat) : Int),
            amount - amount % 10 ^ digits) := by
  have h10 : (10 : Nat) ^ digits < 9223372036854775808 := by
    calc (10 : Nat) ^ digits ≤ 10 ^ 18 := Nat.pow_le_pow_right (by norm_num) hd
    _ < 9223372036854775808 := by norm_num
  have hwrap : id_space_size_i64 digits = ((10 ^ digits : Nat) : Int) := by
    unfold id_space_size_i64
    rw [i64_wrap_eq_of_lt _ (by positivity) (by exact_mod_cast h10)]
    push_cast
    ring
  have hbig : biguint_from_i64 (id_space_size_i64 digits) =
      some (10 ^ digits) := by
    rw [hwrap]
    unfold biguint_from_i64
    rw [if_pos (by positivity)]
    rw [Int.toNat_natCast]
  have hid_lt : amount % 10 ^ digits < 10 ^ digits :=
    Nat.mod_lt _ (by positivity)
  have h63 : (2 : Nat) ^ 63 - 1 = 9223372036854775807 := by norm_num
  have htry : i64_try_from (amount % 10 ^ digits) =
      some ((amount % 10 ^ digits : Nat) : Int) := by
    unfold i64_try_from
    rw [if_pos (by omega)]
  unfold extract_id_from_amount
  rw [hbig]
  simp only [htry]

/-- Claim C1: for every non-negative integer amount and the configured digit
count `d` (any configuration whose `10^d` fits the `i64` id-space computation,
i.e. `d ≤ 18`), `extract_id_from_amount` returns the pair
`(id, true_amount)` with `id = amount mod 10^d`, `0 ≤ id < 10^d`, and
`true_amount + id = amount` — the amount with its last `d` decimal digits
zeroed. -/
theorem extract_id_from_amount_correct (digits amount : Nat)
    (hd : digits ≤ 18) :
    extract_id_from_amount digits amount =
      some (((amount % 10 ^ digits : Nat) : Int),
            amount - amount % 10 ^ digits) ∧
    (0 : Int) ≤ ((amount % 10 ^ digits : Nat) : Int) ∧
    amount % 10 ^ digits < 10 ^ digits ∧
    (amount - amount % 10 ^ digits) + amount % 10 ^ digits = amount := by
  refine ⟨extract_eq_of_le digits amount hd, by positivity,
    Nat.mod_lt _ (by positivity), Nat.sub_add_cancel (Nat.mod_le _ _)⟩

/-- Witness for C1: the spec's own scenario, digits 3 and amount 500123,
decodes to id 123 and true amount 500000. -/
theorem extract_id_from_amount_correct_witness :
    3 ≤ 18 ∧
    extract_id_from_amount 3 500123 = some ((123 : Int), 500000) := by
  have h := (extract_id_from_amount_correct 3 500123 (by norm_num)).1
  rw [h]
  norm_num

/-- Claim C2: `check_request` returns true if and only if the request is
present, its `fulfilled_at` is `None`, the submission time is strictly before
`valid_until`, and the decoded amount equals the request's `price_in_wei`;
every other combination returns false. -/
theorem check_request_iff (amount : Nat) (submission_time : Int)
    (request : Option ForcedExitRequest) :
    check_request amount submission_time request = true ↔
      ∃ r, request = some r ∧ r.fulfilled_at = none ∧
        submission_time < r.valid_until ∧ r.price_in_wei = amount := by
  cases request with
  | none => simp [check_request]
  | some r =>
    cases hfa : r.fulfilled_at with
    | none => simp [check_request, hfa]
    | some t => simp [check_request, hfa]

/-- Claim C8 counterexample: a configuration with `digits_in_id = 19` makes
`10^19` exceed the `i64` request-id range, yet `ForcedExitSender::new` accepts
it (it performs no digits validation), and `extract_id_from_amount` then fails
at decode time — the opposite of the claimed startup rejection. -/
theorem new_digits_unvalidated_counterexample :
    new_accepts_digits 19 = true ∧
    extract_id_from_amount 19 500123 = none := by
  exact ⟨rfl, rfl⟩

/-- Claim C8 amended: `ForcedExitSender::new` performs no validation of
`digits_in_id` — its only failure points are the sender-account lookup and
the private-key decoding — so every digit count passes startup; in
particular a configuration with `digits_in_id = 19`, whose `10^19` exceeds
the request-id `i64` range, is accepted at startup and
`extract_id_from_amount` then fails at decode time on the id-range
conversion (see the counterexample).  For configurations with
`digits_in_id ≤ 18`, `extract_id_from_amount` never fails on the id-range
conversion.  (No more is claimed about other oversized digit counts: for
some of them, e.g. 20, the release-mode `i64` wrap of `10^digits` is a
positive value, and decoding silently succeeds against that wrong
modulus rather than failing.) -/
theorem new_accepts_and_decode_total (digits amount : Nat) :
    new_accepts_digits digits = true ∧
    (digits ≤ 18 → (extract_id_from_amount digits amount).isSome = true) := by
  refine ⟨rfl, fun hd => ?_⟩
  rw [extract_eq_of_le digits amount hd]
  rfl

/-- Witness for the amended C8 at digits 5, amount 98765. -/
theorem new_accepts_and_decode_total_witness :
    5 ≤ 18 ∧ new_accepts_digits 5 = true ∧
    (extract_id_from_amount 5 98765).isSome = true := by
  have h := new_accepts_and_decode_total 5 98765
  exact ⟨by norm_num, h.1, h.2 (by norm_num)⟩

/-- Helper: the builder loop emits one transaction per token. -/
theorem build_transactions_go_length (acc : AccountId) (target : Address)
    (nonce : Nat) (toks : List TokenId) :
    (build_transactions_go acc target nonce toks).length = toks.length := by
  induction toks generalizing nonce with
  | nil => rfl
  | cons t rest ih => simp [build_transactions_go, ih]

/-- Helper: the i-th transaction of the builder loop carries nonce
`nonce + i` and the i-th token, provided the nonces never wrap. -/
theorem build_transactions_go_getElem (acc : AccountId) (target : Address)
    (toks : List TokenId) (nonce : Nat)
    (h : nonce + toks.length ≤ 2 ^ 32) (i : Nat) (tok : TokenId)
    (htok : toks[i]? = some tok) :
    (build_transactions_go acc target nonce toks)[i]? =
      some (ForcedExit.new_signed acc target tok 0 (nonce + i)
        TimeRange.deflt) := by
  induction toks generalizing nonce i with
  | nil => simp at htok
  | cons t rest ih =>
    cases i with
    | zero =>
      simp only [List.getElem?_cons_zero, Option.some.injEq] at htok
      subst htok
      simp [build_transactions_go, build_forced_exit]
    | succ j =>
      rw [List.getElem?_cons_succ] at htok
      have hjlen : j < rest.length := by
        by_contra hc
        rw [List.getElem?_eq_none (by omega)] at htok
        exact Option.noConfusion htok
      have hlen : rest.length + 1 = (t :: rest).length := by simp
      have hwrap : u32_wrap_succ nonce = nonce + 1 := by
        unfold u32_wrap_succ
        apply Nat.mod_eq_of_lt
        have : (t :: rest).length = rest.length + 1 := by simp
        omega
      have ih2 := ih (nonce + 1) (by simp at h ⊢; omega) j htok
      show (build_forced_exit acc nonce target t ::
        build_transactions_go acc target (u32_wrap_succ nonce) rest)[j + 1]? =
          _
      rw [List.getElem?_cons_succ, hwrap, ih2]
      congr 2
      omega

/-- Claim C3: for a request with `k` tokens and sender committed nonce `n`
(with `n + k` within the `u32` nonce range, so the nonce increments do not
wrap), `build_transactions` produces exactly `k` signed transactions, one per
token in the request's stored token order, the i-th carrying nonce `n + i`
(strictly increasing and contiguous), each targeting `request.target` with
amount zero and the default (unbounded) time-validity. -/
theorem build_transactions_correct (acc : AccountId) (n : Nat)
    (req : ForcedExitRequest) (h : n + req.tokens.length ≤ 2 ^ 32) :
    (build_transactions acc n req).length = req.tokens.length ∧
    ∀ i tok, req.tokens[i]? = some tok →
      (build_transactions acc n req)[i]? =
        some (ForcedExit.new_signed acc req.target tok 0 (n + i)
          TimeRange.deflt) := by
  constructor
  · exact build_transactions_go_length acc req.target n req.tokens
  · intro i tok htok
    exact build_transactions_go_getElem acc req.target req.tokens n h i tok
      htok

/-- Witness for C3: the spec's own scenario — a request with 2 tokens and
sender nonce 7 yields transactions with nonces 7 and 8, in token order. -/
theorem build_transactions_correct_witness :
    7 + 2 ≤ 2 ^ 32 ∧
    (build_transactions 55 7 reqTwoTokens).length = 2 ∧
    (build_transactions 55 7 reqTwoTokens)[0]? =
      some (ForcedExit.new_signed 55 77 4 0 7 TimeRange.deflt) ∧
    (build_transactions 55 7 reqTwoTokens)[1]? =
      some (ForcedExit.new_signed 55 77 9 0 8 TimeRange.deflt) := by
  have h := build_transactions_correct 55 7 reqTwoTokens
    (by norm_num [reqTwoTokens])
  exact ⟨by norm_num, h.1, h.2 0 4 (by rfl), h.2 1 9 (by rfl)⟩

/-- Claim C4: `send_transactions` sends the batch before persisting anything
(the send is the first effect of its trace); only after a successful send does
it persist `fulfilled_by = Some(hashes)`, the persisted hash sequence equal to
the returned one; on a failed send it returns an error and persists nothing,
leaving `fulfilled_by` (and the whole row) unchanged. -/
theorem send_transactions_correct (hash : SignedZkSyncTx → TxHash)
    (send_ok : Bool) (req : ForcedExitRequest) (txs : List SignedZkSyncTx)
    (row : ReqRow) :
    (send_transactions hash send_ok req txs).1[0]? =
      some (StorageEffect.send_txs_batch txs) ∧
    (send_ok = true →
      (send_transactions hash send_ok req txs).2 =
        Except.ok (txs.map hash) ∧
      (send_transactions hash send_ok req txs).1 =
        [StorageEffect.send_txs_batch txs,
         StorageEffect.set_fulfilled_by req.id (some (txs.map hash))] ∧
      (applyEffects req.id row
        (send_transactions hash send_ok req txs).1).fulfilled_by =
          some (txs.map hash)) ∧
    (send_ok = false →
      (send_transactions hash send_ok req txs).2 = Except.error () ∧
      applyEffects req.id row (send_transactions hash send_ok req txs).1 =
        row) := by
  cases send_ok <;>
    simp [send_transactions, applyEffects, applyEffect]

/-- Witness for C4 at a one-transaction batch: the successful send persists
exactly the returned hash list, and the failed send leaves the blank row
unchanged. -/
theorem send_transactions_correct_witness :
    (send_transactions hashNonce true reqTwoTokens [txA]).2 =
      Except.ok [7] ∧
    (applyEffects 1 ⟨none, none⟩
      (send_transactions hashNonce true reqTwoTokens [txA]).1).fulfilled_by =
        some [7] ∧
    applyEffects 1 ⟨none, none⟩
      (send_transactions hashNonce false reqTwoTokens [txA]).1 =
        ⟨none, none⟩ := by
  have ht := send_transactions_correct hashNonce true reqTwoTokens [txA]
    ⟨none, none⟩
  have hf := send_transactions_correct hashNonce false reqTwoTokens [txA]
    ⟨none, none⟩
  exact ⟨(ht.2.1 rfl).1, (ht.2.1 rfl).2.2, (hf.2.2 rfl).2⟩

/-- Claim C5 (code bug): the source intends a 200 ms poll interval and a 120 s
confirmation timeout (`poll_interval_millis = 200`, `timeout_millis = 120000`,
and the comment on the panic says two minutes), but it builds the tick with
`Duration::from_secs(poll_interval_millis)`, so each of the 600 polls sleeps
200 000 ms and the timeout panic only fires after 600 × 200 s = 120 000 000 ms
(≈ 33 hours) of wall-clock sleeping.  The outcome structure itself matches the
claim: a success receipt returns Ok at once, a failure receipt returns the
transaction-failed error at once, and receipt absence through every poll ends
in the halting panic. -/
theorem wait_until_comitted_units_bug :
    poll_interval_millis = 200 ∧
    timeout_millis = 120000 ∧
    poll_sleep_millis = 200000 ∧
    wait_until_comitted (fun _ => none) =
      (WaitOutcome.timedOutFatal, 600) ∧
    wait_iters * poll_sleep_millis = 120000000 ∧
    wait_until_comitted (fun i => if i = 0 then some true else none) =
      (WaitOutcome.committed, 0) ∧
    wait_until_comitted (fun i => if i = 0 then some false else none) =
      (WaitOutcome.failed, 0) := by
  exact ⟨rfl, rfl, rfl, by decide, rfl, rfl, rfl⟩

/-- Claim C6 (code bug): `await_unconfirmed_request` calls `set_fulfilled_at`
inside the per-hash loop, so on a request whose `fulfilled_by` holds two
hashes of which the first confirms and the second fails, `fulfilled_at` is
persisted after the first hash and `await_unconfirmed` then clears
`fulfilled_by`, ending with `fulfilled_at` set and `fulfilled_by = None`;
and when both hashes confirm, `fulfilled_at` is persisted twice — against the
claimed set-only-after-all-confirm, set-at-most-once, and
remains-`None`-on-failure behavior. -/
theorem await_unconfirmed_sets_fulfilled_at_early :
    applyEffects 1 ⟨some [10, 11], none⟩
      (await_unconfirmed_one confirmFirstOnly 99 reqTwoHashes) =
        ⟨none, some 99⟩ ∧
    await_unconfirmed_one confirmFirstOnly 99 reqTwoHashes =
      [StorageEffect.set_fulfilled_at 1 99,
       StorageEffect.set_fulfilled_by 1 none] ∧
    await_unconfirmed_one confirmAll 99 reqTwoHashes =
      [StorageEffect.set_fulfilled_at 1 99,
       StorageEffect.set_fulfilled_at 1 99] := by
  exact ⟨rfl, rfl, rfl⟩

/-- Claim C9: on a stored request with an empty token list that passes
`check_request` (id 123, matching price, still valid, never fulfilled),
`try_process_request` builds an empty batch, submits it, persists
`fulfilled_by = Some([])` — and then panics on the out-of-bounds index
`hashes[0]` instead of returning a `Result`. -/
theorem try_process_request_empty_tokens_panics :
    check_request 500000 5 (lookupEmptyTokens 123) = true ∧
    try_process_request 3 lookupEmptyTokens hashNonce true 55 7
        (fun _ _ => none) 100 500123 5 =
      (TryOutcome.indexOutOfBounds,
       [StorageEffect.send_txs_batch [],
        StorageEffect.set_fulfilled_by 123 (some [])]) := by
  exact ⟨rfl, rfl⟩

/-- Claim C10: the attempt counter of `process_request` is a `u8` incremented
by 1 after every failed attempt with no saturation: after 255 consecutive
failures it reads 255 and the escalation condition holds, and the next
increment wraps modulo `2^8` back to 0, making `attempts >= 3` false again. -/
theorem attempts_counter_wraps :
    attempts_after_failures 255 = 255 ∧
    logs_escalation (attempts_after_failures 255) = true ∧
    attempts_after_failures 256 = 0 ∧
    logs_escalation (attempts_after_failures 256) = false ∧
    attempts_after_failure 255 = 0 := by
  exact ⟨by decide, by decide, by decide, by decide, by decide⟩

/-- Helper: the loop returns right after the first successful attempt. -/
theorem process_request_go_terminates (a n : Nat) :
    (process_request_go a (List.replicate n false ++ [true])).1 =
      some (n + 1) := by
  induction n generalizing a with
  | zero => rfl
  | succ m ih =>
    rw [List.replicate_succ, List.cons_append]
    simp [process_request_go, ih]

/-- Helper: while every attempt fails the loop keeps running. -/
theorem process_request_go_none (a n : Nat) :
    (process_request_go a (List.replicate n false)).1 = none := by
  induction n generalizing a with
  | zero => rfl
  | succ m ih =>
    rw [List.replicate_succ]
    simp [process_request_go, ih]

/-- Helper: the escalation-log flag after the (i+1)-th consecutive failed
attempt is the wrapped counter test `(a + i + 1) % 256 >= 3`. -/
theorem process_request_go_flag (n : Nat) (a i : Nat) (hi : i < n) :
    ((process_request_go a (List.replicate n false)).2)[i]? =
      some (logs_escalation ((a + i + 1) % 256)) := by
  induction n generalizing a i with
  | zero => omega
  | succ m ih =>
    rw [List.replicate_succ]
    simp only [process_request_go, Bool.false_eq_true, if_false]
    cases i with
    | zero =>
      simp [attempts_after_failure]
    | succ j =>
      rw [List.getElem?_cons_succ, ih (attempts_after_failure a) j (by omega)]
      congr 2
      unfold attempts_after_failure
      omega

/-- Claim C7 counterexample: after 256 consecutive failed attempts — far past
the 3-failure escalation threshold — the wrapped `u8` counter reads 0 and the
256th failed attempt emits no escalation log, refuting "logs an escalation on
every further failed attempt". -/
theorem process_request_silent_on_256th_failure :
    ((process_request (List.replicate 256 false)).2)[2]? = some true ∧
    ((process_request (List.replicate 256 false)).2)[255]? = some false := by
  exact ⟨by decide, by decide⟩

/-- Claim C7 amended: `process_request` returns as soon as one full pipeline
attempt succeeds (after `n` failures and one success it stops, having run
`n + 1` attempts); while attempts keep failing it never stops retrying; and
the escalation log after the (i+1)-th consecutive failed attempt fires iff
the wrapped `u8` counter `(i + 1) mod 256` is at least 3 — so from the 3rd
consecutive failure onward it logs on every further failed attempt except
during the three attempts following each counter wrap past 255. -/
theorem process_request_retry_forever (n i : Nat) (hi : i < n) :
    (process_request (List.replicate n false ++ [true])).1 = some (n + 1) ∧
    (process_request (List.replicate n false)).1 = none ∧
    ((process_request (List.replicate n false)).2)[i]? =
      some (logs_escalation ((i + 1) % 256)) := by
  refine ⟨process_request_go_terminates 0 n, process_request_go_none 0 n, ?_⟩
  have h := process_request_go_flag n 0 i hi
  simpa using h

/-- Witness for the amended C7 at a 300-failure trace: the loop is still
running after 300 failures, terminates on a success as attempt 301, logs on
the 3rd failed attempt, and is silent on the 256th. -/
theorem process_request_retry_forever_witness :
    2 < 300 ∧ 255 < 300 ∧
    (process_request (List.replicate 300 false ++ [true])).1 = some 301 ∧
    (process_request (List.replicate 300 false)).1 = none ∧
    ((process_request (List.replicate 300 false)).2)[2]? = some true ∧
    ((process_request (List.replicate 300 false)).2)[255]? = some false := by
  have h2 := process_request_retry_forever 300 2 (by norm_num)
  have h255 := process_request_retry_forever 300 255 (by norm_num)
  refine ⟨by norm_num, by norm_num, h2.1, h2.2.1, ?_, ?_⟩
  · rw [h2.2.2]
    decide
  · rw [h255.2.2]
    decide

end ZkSyncForcedExit

